import Mathlib

set_option linter.unusedVariables false

/-
Shallow embedding of the GPU resource core of the repository:
the mesh data pipeline (CmMesh.cpp), the GPU parameter store accessors
(BsGpuParams.h) and the graphics pipeline state (BsGpuPipelineState.h).
Byte buffers are lists of naturals, device buffers are records holding their
configuration and contents, and exceptions are Except results.
-/

/-- Index buffer element type (IndexBuffer::IndexType). -/
inductive IndexType where
  | it16
  | it32
deriving DecidableEq, Repr

/-- Size in bytes of one index element (IndexBuffer::getIndexSize). -/
def IndexType.size : IndexType → Nat
  | .it16 => 2
  | .it32 => 4

/-- Vertex element type; the float family is enough for the mesh claims. -/
inductive VertexElementType where
  | float1
  | float2
  | float3
  | float4
deriving DecidableEq, Repr

/-- Size in bytes of one vertex element (VertexElement::getSize). -/
def VertexElementType.size : VertexElementType → Nat
  | .float1 => 4
  | .float2 => 8
  | .float3 => 12
  | .float4 => 16

/-- One entry of a vertex declaration (VertexElement): element type, semantic,
semantic index and the vertex stream the element is sourced from. -/
structure VertexElement where
  etype : VertexElementType
  semantic : Nat
  semanticIdx : Nat
  streamIdx : Nat
deriving DecidableEq, Repr

/-- Combined size of all declaration elements bound to one stream
(VertexDeclaration::getVertexSize). -/
def vertexSizeOf (elems : List VertexElement) (streamIdx : Nat) : Nat :=
  ((elems.filter (fun e => e.streamIdx == streamIdx)).map (fun e => e.etype.size)).sum

/-- Per-submesh record of a MeshData container: index range and draw operation. -/
structure SubMeshDesc where
  indexOffset : Nat
  indexCount : Nat
  drawOp : Nat
deriving DecidableEq, Repr, Inhabited

/-- RTTI type id of MeshData (TID_MeshData); the concrete value is irrelevant,
only its distinctness from other type ids matters. -/
def TID_MeshData : Nat := 1001

/-- Modelled from the spec: the MeshData container class is not under src/
(only its caller CmMesh.cpp is). It exposes per-submesh index range and draw
operation, one raw byte block per populated vertex stream, the index element
type and raw index bytes, and the vertex declaration its elements describe.
The typeId field models GpuResourceData::getTypeId. -/
structure MeshData where
  typeId : Nat
  indexType : IndexType
  numVertices : Nat
  subMeshes : List SubMeshDesc
  indexBytes : List Nat
  declElements : List VertexElement
  streams : List (Nat × List Nat)
deriving DecidableEq, Repr

def MeshData.getNumSubmeshes (d : MeshData) : Nat := d.subMeshes.length

def MeshData.getNumIndices (d : MeshData) (i : Nat) : Nat :=
  (d.subMeshes.getD i default).indexCount

def MeshData.getIndexBufferOffset (d : MeshData) (i : Nat) : Nat :=
  (d.subMeshes.getD i default).indexOffset

def MeshData.getDrawOp (d : MeshData) (i : Nat) : Nat :=
  (d.subMeshes.getD i default).drawOp

/-- Total index count of the container (the no-argument MeshData::getNumIndices). -/
def MeshData.getNumIndicesTotal (d : MeshData) : Nat :=
  (d.subMeshes.map SubMeshDesc.indexCount).sum

def MeshData.getIndexElementSize (d : MeshData) : Nat := d.indexType.size

def MeshData.getIndexData (d : MeshData) : List Nat := d.indexBytes

def MeshData.getIndexBufferSize (d : MeshData) : Nat := d.indexBytes.length

def MeshData.getMaxStreamIdx (d : MeshData) : Nat :=
  (d.streams.map Prod.fst).foldr Nat.max 0

def MeshData.hasStream (d : MeshData) (i : Nat) : Bool :=
  (d.streams.lookup i).isSome

def MeshData.getStreamData (d : MeshData) (i : Nat) : List Nat :=
  (d.streams.lookup i).getD []

def MeshData.getStreamSize (d : MeshData) (i : Nat) : Nat :=
  (d.getStreamData i).length

/-- MeshData::createDeclaration builds a vertex declaration out of the
container's vertex elements. -/
def MeshData.createDeclaration (d : MeshData) : List VertexElement := d.declElements

/-- Memory copy of src into dest starting at byte position pos. Bytes that
would land outside the destination allocation are dropped: a memcpy never
grows the destination. -/
def writeBytesAt (dest : List Nat) (pos : Nat) (src : List Nat) : List Nat :=
  dest.take pos ++ src.take (dest.length - pos) ++ dest.drop (pos + src.length)

/-- One descriptor of Mesh::mSubMeshes (the SubMesh struct). -/
structure SubMesh where
  indexOffset : Nat
  indexCount : Nat
  drawOp : Nat
deriving DecidableEq, Repr, Inhabited

/-- Device index buffer: configured index type, element capacity, contents. -/
structure IndexBufferImpl where
  itype : IndexType
  indexCount : Nat
  data : List Nat
deriving DecidableEq, Repr

/-- IndexData block owned by a mesh: buffer reference plus index count. -/
structure IndexData where
  indexBuffer : IndexBufferImpl
  indexCount : Nat
deriving DecidableEq, Repr

/-- Device vertex buffer: per-vertex size, vertex count, contents. -/
structure VertexBuffer where
  vertexSize : Nat
  numVertices : Nat
  data : List Nat
deriving DecidableEq, Repr

/-- VertexData block owned by a mesh: vertex count, declaration and the
per-stream buffer map (kept in ascending stream order, as the C++ map is). -/
structure VertexData where
  vertexCount : Nat
  vertexDeclaration : List VertexElement
  buffers : List (Nat × VertexBuffer)
deriving DecidableEq, Repr

/-- Observable state of a Mesh: submesh list, optional index data block and
optional vertex data block. -/
structure Mesh where
  mSubMeshes : List SubMesh
  mIndexData : Option IndexData
  mVertexData : Option VertexData
deriving DecidableEq, Repr

/-- Modelled from the spec: HardwareBufferManager::createIndexBuffer is not
under src/; it returns a device buffer of the requested type and element
count whose initial contents are unspecified (modelled as zero bytes). -/
def createIndexBuffer (itype : IndexType) (indexCount : Nat) : IndexBufferImpl :=
  { itype := itype, indexCount := indexCount,
    data := List.replicate (indexCount * itype.size) 0 }

/-- Modelled from the spec: HardwareBufferManager::createVertexBuffer is not
under src/; it returns a device buffer for the given vertex size and count
whose initial contents are unspecified (modelled as zero bytes). -/
def createVertexBuffer (vertexSize : Nat) (numVertices : Nat) : VertexBuffer :=
  { vertexSize := vertexSize, numVertices := numVertices,
    data := List.replicate (vertexSize * numVertices) 0 }

/-- Submesh list rebuild of Mesh::writeSubresource (CmMesh.cpp lines 34 to 45):
source submeshes with zero indices are skipped, the others are carried over
with their offset, count and draw operation. -/
def writeSubMeshList (subs : List SubMeshDesc) : List SubMesh :=
  subs.filterMap (fun sm =>
    if sm.indexCount > 0 then some ⟨sm.indexOffset, sm.indexCount, sm.drawOp⟩ else none)

/-- Index upload of Mesh::writeSubresource (lines 47 to 64): a fresh buffer is
created for the total index count and the raw index bytes of the container
are copied in bulk. -/
def writeIndexBuffer (d : MeshData) : IndexBufferImpl :=
  let buffer := createIndexBuffer d.indexType d.getNumIndicesTotal
  { buffer with
      data := writeBytesAt buffer.data 0 (d.getIndexData.take d.getIndexBufferSize) }

/-- Vertex upload of Mesh::writeSubresource (lines 72 to 94): one fresh buffer
per populated stream, filled with the raw bytes of that stream. -/
def writeVertexBuffers (d : MeshData) : List (Nat × VertexBuffer) :=
  (List.range (d.getMaxStreamIdx + 1)).filterMap (fun i =>
    if d.hasStream i then
      let buffer := createVertexBuffer (vertexSizeOf d.createDeclaration i) d.numVertices
      some (i, { buffer with
        data := writeBytesAt buffer.data 0 ((d.getStreamData i).take (d.getStreamSize i)) })
    else none)

/-- Mesh state installed by a successful Mesh::writeSubresource: the previous
submesh list, index data and vertex data are replaced wholesale. -/
def writeSubresourceData (d : MeshData) : Mesh :=
  { mSubMeshes := writeSubMeshList d.subMeshes
    mIndexData := some { indexBuffer := writeIndexBuffer d,
                         indexCount := d.getNumIndicesTotal }
    mVertexData := some { vertexCount := d.numVertices
                          vertexDeclaration := d.createDeclaration
                          buffers := writeVertexBuffers d } }

/-- Mesh::writeSubresource (CmMesh.cpp lines 25 to 95). A container whose type
id is not TID_MeshData is rejected before any state is touched. -/
def Mesh.writeSubresource (m : Mesh) (subresourceIdx : Nat) (data : MeshData) :
    Except String Mesh :=
  if data.typeId ≠ TID_MeshData then
    Except.error "Invalid GpuResourceData type. Only MeshData is supported."
  else
    Except.ok (writeSubresourceData data)

/-- Per-submesh index copy loop of Mesh::readSubresource (lines 115 to 125):
each mesh submesh range is copied from the device buffer into the paired
destination submesh region located through MeshData::getIndices16 or
MeshData::getIndices32. -/
def copyIndicesLoop (srcData : List Nat) (idxElemSize destElemSize : Nat) :
    List (SubMesh × SubMeshDesc) → List Nat → List Nat
  | [], dest => dest
  | (sm, dsm) :: rest, dest =>
    copyIndicesLoop srcData idxElemSize destElemSize rest
      (writeBytesAt dest (dsm.indexOffset * destElemSize)
        ((srcData.drop (sm.indexOffset * idxElemSize)).take (sm.indexCount * idxElemSize)))

/-- Replace the byte block of one stream of a container; a stream index the
container does not hold is left untouched. -/
def setStream (streams : List (Nat × List Nat)) (k : Nat) (bytes : List Nat) :
    List (Nat × List Nat) :=
  streams.map (fun p => if p.fst == k then (p.fst, bytes) else p)

/-- Vertex copy loop of Mesh::readSubresource (lines 130 to 148): the mesh
buffers are visited in map order while the destination stream index is a
plain running counter. -/
def copyStreamsLoop : List (Nat × (Nat × VertexBuffer)) → List (Nat × List Nat) →
    List (Nat × List Nat)
  | [], streams => streams
  | (streamIdx, (_, vb)) :: rest, streams =>
    let bufferSize := vb.vertexSize * vb.numVertices
    let dest := (streams.lookup streamIdx).getD []
    copyStreamsLoop rest
      (setStream streams streamIdx (writeBytesAt dest 0 (vb.data.take bufferSize)))

/-- Mesh::readSubresource (CmMesh.cpp lines 97 to 149): after the type check,
index bytes are copied per submesh (skipped without an index data block) and
every vertex buffer is copied back in full (skipped without a vertex data
block). The mesh itself is never mutated, only the destination container. -/
def Mesh.readSubresource (m : Mesh) (subresourceIdx : Nat) (data : MeshData) :
    Except String MeshData :=
  if data.typeId ≠ TID_MeshData then
    Except.error "Invalid GpuResourceData type. Only MeshData is supported."
  else
    let data1 : MeshData :=
      match m.mIndexData with
      | some id =>
        { data with indexBytes :=
            (copyIndicesLoop id.indexBuffer.data id.indexBuffer.itype.size
              id.indexBuffer.itype.size (m.mSubMeshes.zip data.subMeshes) data.indexBytes) }
      | none => data
    let data2 : MeshData :=
      match m.mVertexData with
      | some vd => { data1 with streams := copyStreamsLoop vd.buffers.enum data1.streams }
      | none => data1
    Except.ok data2

/-- Modelled from the spec: MeshData::addSubMesh followed by endDesc is not
under src/; repeated addSubMesh calls lay the submesh index ranges out
one after another. -/
def mkSubMeshDescs (c : Nat) : List Nat → List SubMeshDesc
  | [] => []
  | n :: rest => ⟨c, n, 0⟩ :: mkSubMeshDescs (c + n) rest

/-- Largest stream index referenced by a list of vertex elements. -/
def maxStreamIdxOf (elems : List VertexElement) : Nat :=
  (elems.map VertexElement.streamIdx).foldr Nat.max 0

/-- Stream indices that received at least one vertex element. -/
def streamIndicesOf (elems : List VertexElement) : List Nat :=
  (List.range (maxStreamIdxOf elems + 1)).filter
    (fun s => elems.any (fun e => e.streamIdx == s))

/-- Modelled from the spec: the MeshData builder (beginDesc, addSubMesh,
addVertElem, endDesc) is not under src/. endDesc allocates a zero-filled
index block for the accumulated submesh counts and one zero-filled byte block
per stream that received vertex elements. -/
def buildMeshData (numVertices : Nat) (itype : IndexType) (subMeshCounts : List Nat)
    (elems : List VertexElement) : MeshData :=
  { typeId := TID_MeshData
    indexType := itype
    numVertices := numVertices
    subMeshes := mkSubMeshDescs 0 subMeshCounts
    indexBytes := List.replicate (subMeshCounts.sum * itype.size) 0
    declElements := elems
    streams := (streamIndicesOf elems).map (fun s =>
      (s, List.replicate (vertexSizeOf elems s * numVertices) 0)) }

/-- Body of Mesh::allocateSubresourceBuffer once the vertex data block has been
dereferenced (lines 157 to 194). Submesh counts are replayed only when an
index data block exists; for every vertex buffer the loop adds every element
of the whole declaration to that destination stream (lines 176 to 187), not
just the elements belonging to the buffer's source stream. -/
def allocateFromMesh (m : Mesh) (vd : VertexData) : MeshData :=
  let indexType : IndexType :=
    match m.mIndexData with
    | some id => id.indexBuffer.itype
    | none => IndexType.it32
  let subMeshCounts : List Nat :=
    match m.mIndexData with
    | some _ => m.mSubMeshes.map SubMesh.indexCount
    | none => []
  let elems : List VertexElement :=
    (vd.buffers.enum.map (fun p =>
      vd.vertexDeclaration.map (fun e => { e with streamIdx := p.fst }))).flatten
  buildMeshData vd.vertexCount indexType subMeshCounts elems

/-- Mesh::allocateSubresourceBuffer (CmMesh.cpp lines 151 to 195). The vertex
data block is dereferenced unconditionally to read its vertex count before
any null check, so the call is undefined (modelled as none) on a mesh without
vertex data; the index data block is null checked in the same function. -/
def Mesh.allocateSubresourceBuffer (m : Mesh) (subresourceIdx : Nat) : Option MeshData :=
  match m.mVertexData with
  | none => none
  | some vd => some (allocateFromMesh m vd)

/-- Draw-ready reference bundle returned by Mesh::getSubMeshData (RenderOpMesh). -/
structure RenderOpMesh where
  indexData : Option IndexData
  vertexData : Option VertexData
  useIndexes : Bool
  operationType : Nat
deriving DecidableEq, Repr

/-- Mesh::getSubMeshData (CmMesh.cpp lines 197 to 214). The negative-index half
of the guard is vacuous for an unsigned index; the bundle always references
the whole index and vertex data of the mesh. -/
def Mesh.getSubMeshData (m : Mesh) (subMeshIdx : Nat) : Except String RenderOpMesh :=
  if subMeshIdx < 0 ∨ m.mSubMeshes.length ≤ subMeshIdx then
    Except.error ("Invalid sub-mesh index (" ++ toString subMeshIdx ++
      "). Number of sub-meshes available: " ++ toString m.mSubMeshes.length)
  else
    Except.ok { indexData := m.mIndexData
                vertexData := m.mVertexData
                useIndexes := true
                operationType := (m.mSubMeshes.getD subMeshIdx default).drawOp }

/-- Round trip of spec section 8: write the container into a fresh mesh,
allocate a read-back container from the mesh and read the mesh into it. -/
def meshRoundTrip (d : MeshData) : Option MeshData :=
  match Mesh.writeSubresource ⟨[], none, none⟩ 0 d with
  | Except.error _ => none
  | Except.ok m =>
    match m.allocateSubresourceBuffer 0 with
    | none => none
    | some buf =>
      match m.readSubresource 0 buf with
      | Except.error _ => none
      | Except.ok out => some out

/-- Cumulative submesh layout: each submesh range starts where the previous one
ended. Containers assembled by the MeshData builder have this shape. -/
def subCum : Nat → List SubMeshDesc → Bool
  | _, [] => true
  | c, sm :: rest => sm.indexOffset == c && subCum (c + sm.indexCount) rest

/-
GPU parameter store (BsGpuParams.h).
-/

/-- Data parameter types of the descriptor set (GpuParamDataType). -/
inductive GpuParamDataType where
  | GPDT_FLOAT1
  | GPDT_FLOAT2
  | GPDT_FLOAT3
  | GPDT_FLOAT4
  | GPDT_MATRIX_3X3
  | GPDT_MATRIX_4X4
  | GPDT_STRUCT
deriving DecidableEq, Repr

/-- Descriptor of one data parameter (GpuParamDataDesc). -/
structure GpuParamDataDesc where
  type : GpuParamDataType
  elementSize : Nat
  arraySize : Nat
deriving DecidableEq, Repr

/-- Descriptor set shared by all GpuParams built from one program
(GpuParamDesc): parameter name to data descriptor. -/
structure GpuParamDesc where
  params : List (String × GpuParamDataDesc)
deriving DecidableEq, Repr

/-- CPU-side parameter store (GpuParams); only the descriptor set takes part in
the getParam contract. -/
structure GpuParams where
  mParamDesc : GpuParamDesc
deriving DecidableEq, Repr

/-- Typed parameter handle (TGpuDataParam): references the descriptor of the
resolved parameter. -/
structure TGpuDataParam where
  paramDesc : GpuParamDataDesc
deriving DecidableEq, Repr

def GpuParams.findParam (gp : GpuParams) (name : String) : Option GpuParamDataDesc :=
  gp.mParamDesc.params.lookup name

/-- Shared body of the six GpuParams::getParam specializations (BsGpuParams.h
lines 108 to 187): the call is rejected when the name is absent from the
descriptor set or the stored type differs from the expected one, otherwise a
handle for the resolved parameter is produced. -/
def GpuParams.getParamOfType (gp : GpuParams) (name : String)
    (expected : GpuParamDataType) (typeName : String) : Except String TGpuDataParam :=
  match gp.findParam name with
  | none => Except.error ("Cannot find " ++ typeName ++ " parameter with the name " ++ name)
  | some d =>
    if d.type ≠ expected then
      Except.error ("Cannot find " ++ typeName ++ " parameter with the name " ++ name)
    else
      Except.ok { paramDesc := d }

def GpuParams.getParamFloat (gp : GpuParams) (name : String) : Except String TGpuDataParam :=
  gp.getParamOfType name GpuParamDataType.GPDT_FLOAT1 "float"

def GpuParams.getParamVec2 (gp : GpuParams) (name : String) : Except String TGpuDataParam :=
  gp.getParamOfType name GpuParamDataType.GPDT_FLOAT2 "vector (2)"

def GpuParams.getParamVec3 (gp : GpuParams) (name : String) : Except String TGpuDataParam :=
  gp.getParamOfType name GpuParamDataType.GPDT_FLOAT3 "vector (3)"

def GpuParams.getParamVec4 (gp : GpuParams) (name : String) : Except String TGpuDataParam :=
  gp.getParamOfType name GpuParamDataType.GPDT_FLOAT4 "vector (4)"

def GpuParams.getParamMat3 (gp : GpuParams) (name : String) : Except String TGpuDataParam :=
  gp.getParamOfType name GpuParamDataType.GPDT_MATRIX_3X3 "matrix (3x3)"

def GpuParams.getParamMat4 (gp : GpuParams) (name : String) : Except String TGpuDataParam :=
  gp.getParamOfType name GpuParamDataType.GPDT_MATRIX_4X4 "matrix (4x4)"

/-
Graphics pipeline state (BsGpuPipelineState.h).
-/

/-- Pipeline descriptor (PIPELINE_STATE_DESC): shared references modelled as
optional opaque handles, none standing for a null shared pointer. -/
structure PIPELINE_STATE_DESC where
  blendState : Option Nat
  rasterizerState : Option Nat
  depthStencilState : Option Nat
  vertexProgram : Option Nat
  fragmentProgram : Option Nat
  geometryProgram : Option Nat
  hullProgram : Option Nat
  domainProgram : Option Nat
deriving DecidableEq, Repr

/-- Graphics pipeline state (TGraphicsPipelineState): holds the descriptor it
was constructed from. -/
structure TGraphicsPipelineState where
  mData : PIPELINE_STATE_DESC
deriving DecidableEq, Repr

/-- Modelled from the spec: the TGraphicsPipelineState constructor body is not
under src/ (only the class header is); construction stores the descriptor and
always succeeds. -/
def TGraphicsPipelineState.ofDesc (desc : PIPELINE_STATE_DESC) : TGraphicsPipelineState :=
  { mData := desc }

def TGraphicsPipelineState.hasVertexProgram (s : TGraphicsPipelineState) : Bool :=
  s.mData.vertexProgram.isSome

def TGraphicsPipelineState.hasFragmentProgram (s : TGraphicsPipelineState) : Bool :=
  s.mData.fragmentProgram.isSome

def TGraphicsPipelineState.hasGeometryProgram (s : TGraphicsPipelineState) : Bool :=
  s.mData.geometryProgram.isSome

def TGraphicsPipelineState.hasHullProgram (s : TGraphicsPipelineState) : Bool :=
  s.mData.hullProgram.isSome

def TGraphicsPipelineState.hasDomainProgram (s : TGraphicsPipelineState) : Bool :=
  s.mData.domainProgram.isSome

/-
Concrete example values used by witnesses and counterexamples.
-/

/-- Two populated vertex streams, one element each, one submesh of one index. -/
def exMeshDataTwoStreams : MeshData :=
  { typeId := TID_MeshData
    indexType := IndexType.it16
    numVertices := 1
    subMeshes := [⟨0, 1, 0⟩]
    indexBytes := [7, 8]
    declElements := [⟨VertexElementType.float1, 0, 0, 0⟩, ⟨VertexElementType.float1, 1, 0, 1⟩]
    streams := [(0, [1, 2, 3, 4]), (1, [5, 6, 7, 8])] }

/-- Single populated vertex stream: one submesh of six 16-bit indices, four
vertices with a 12-byte stride (the scenario of spec section 8). -/
def exMeshDataOneStream : MeshData :=
  { typeId := TID_MeshData
    indexType := IndexType.it16
    numVertices := 4
    subMeshes := [⟨0, 6, 0⟩]
    indexBytes := [1, 2, 3, 4, 5, 6, 7, 8, 9, 10, 11, 12]
    declElements := [⟨VertexElementType.float3, 0, 0, 0⟩]
    streams := [(0, (List.range 48).map (fun x => x + 100))] }

/-- Container with a wrong RTTI type id. -/
def exWrongTypeData : MeshData :=
  { exMeshDataOneStream with typeId := 0 }

/-- Container with three submeshes, the middle one with zero indices. -/
def exMeshDataZeroSub : MeshData :=
  { typeId := TID_MeshData
    indexType := IndexType.it32
    numVertices := 2
    subMeshes := [⟨0, 2, 5⟩, ⟨2, 0, 6⟩, ⟨2, 1, 7⟩]
    indexBytes := (List.range 12).map (fun x => x + 30)
    declElements := [⟨VertexElementType.float2, 0, 0, 0⟩]
    streams := [(0, (List.range 16).map (fun x => x + 60))] }

/-- Concrete mesh holding a single vertex stream at stream index zero. -/
def exMeshSingleStream : Mesh :=
  { mSubMeshes := [⟨0, 3, 0⟩]
    mIndexData := some { indexBuffer := { itype := IndexType.it16, indexCount := 3,
                                          data := [1, 2, 3, 4, 5, 6] }
                         indexCount := 3 }
    mVertexData := some { vertexCount := 2
                          vertexDeclaration := [⟨VertexElementType.float1, 0, 0, 0⟩]
                          buffers := [(0, { vertexSize := 4, numVertices := 2,
                                            data := [1, 2, 3, 4, 5, 6, 7, 8] })] } }

/-- Concrete mesh with two submeshes, used by the getSubMeshData witnesses. -/
def exMesh : Mesh :=
  { mSubMeshes := [⟨0, 6, 4⟩, ⟨6, 3, 2⟩]
    mIndexData := some { indexBuffer := { itype := IndexType.it16, indexCount := 9,
                                          data := List.replicate 18 3 }
                         indexCount := 9 }
    mVertexData := some { vertexCount := 2
                          vertexDeclaration := [⟨VertexElementType.float1, 0, 0, 0⟩]
                          buffers := [(0, { vertexSize := 4, numVertices := 2,
                                            data := [1, 2, 3, 4, 5, 6, 7, 8] })] } }

/-- Descriptor set holding a single float4 parameter named tint. -/
def exGpuParams : GpuParams :=
  { mParamDesc := { params := [("tint", { type := GpuParamDataType.GPDT_FLOAT4,
                                          elementSize := 16, arraySize := 1 })] } }

/-
Helper lemmas about the byte copy primitive and list bookkeeping.
-/

theorem length_writeBytesAt (dest : List Nat) (pos : Nat) (src : List Nat) :
    (writeBytesAt dest pos src).length = dest.length := by
  simp [writeBytesAt]
  omega

theorem writeBytesAt_eq_of_le (dest : List Nat) (pos : Nat) (src : List Nat)
    (h : pos + src.length ≤ dest.length) :
    writeBytesAt dest pos src = dest.take pos ++ src ++ dest.drop (pos + src.length) := by
  unfold writeBytesAt
  congr 1
  congr 1
  exact List.take_of_length_le (by omega)

theorem writeBytesAt_zero_full (dest src : List Nat) (h : src.length = dest.length) :
    writeBytesAt dest 0 src = src := by
  unfold writeBytesAt
  simp [List.take_of_length_le (Nat.le_of_eq h), List.drop_of_length_le (Nat.le_of_eq h.symm)]

theorem take_add_append (l : List Nat) (m n : Nat) :
    l.take (m + n) = l.take m ++ (l.drop m).take n := by
  induction m generalizing l with
  | zero => simp
  | succ k ih =>
    cases l with
    | nil => simp
    | cons a t => simp [Nat.succ_add, List.take_succ_cons, ih]

theorem filterMap_range_eq_nil {α : Type} (f : Nat → Option α) (n : Nat)
    (h : ∀ i, i < n → f i = none) : (List.range n).filterMap f = [] := by
  induction n with
  | zero => simp
  | succ k ih =>
    rw [List.range_succ, List.filterMap_append]
    simp [ih (fun i hi => h i (by omega)), h k (by omega)]

theorem filterMap_range_eq_single {α : Type} (f : Nat → Option α) (n s : Nat)
    (hs : s < n) (h : ∀ i, i ≠ s → f i = none) :
    (List.range n).filterMap f = (f s).toList := by
  induction n with
  | zero => omega
  | succ k ih =>
    rw [List.range_succ, List.filterMap_append]
    by_cases hk : k = s
    · subst hk
      rw [filterMap_range_eq_nil f k (fun i hi => h i (by omega))]
      cases hfk : f k <;> simp [hfk]
    · rw [ih (by omega)]
      simp [h k hk]

theorem mkSubMeshDescs_map_indexCount (l : List Nat) :
    ∀ c, (mkSubMeshDescs c l).map SubMeshDesc.indexCount = l := by
  induction l with
  | nil => intro c; rfl
  | cons n rest ih => intro c; simp [mkSubMeshDescs, ih]

theorem writeSubMeshList_eq_filter_map (l : List SubMeshDesc) :
    writeSubMeshList l =
      (l.filter (fun sm => 0 < sm.indexCount)).map
        (fun sm => ⟨sm.indexOffset, sm.indexCount, sm.drawOp⟩) := by
  induction l with
  | nil => rfl
  | cons sm rest ih =>
    by_cases h : 0 < sm.indexCount <;>
      simp [writeSubMeshList, List.filterMap_cons, h, List.filter_cons] at ih ⊢ <;>
      exact ih

theorem sum_writeSubMeshList (l : List SubMeshDesc) :
    ((writeSubMeshList l).map SubMesh.indexCount).sum =
      (l.map SubMeshDesc.indexCount).sum := by
  induction l with
  | nil => rfl
  | cons sm rest ih =>
    by_cases h : 0 < sm.indexCount
    · simp [writeSubMeshList, List.filterMap_cons, h] at ih ⊢
      omega
    · have h0 : sm.indexCount = 0 := by omega
      simp [writeSubMeshList, List.filterMap_cons, h, h0] at ih ⊢
      exact ih

theorem drop_append_len (a t : List Nat) (k : Nat) :
    (a ++ t).drop (a.length + k) = t.drop k := by
  rw [← List.drop_drop, List.drop_left]

theorem copyIndicesLoop_reconstruct (es : Nat) (l : List SubMeshDesc) :
    ∀ (c : Nat) (src dest : List Nat),
      subCum c l = true →
      (c + (l.map SubMeshDesc.indexCount).sum) * es ≤ src.length →
      src.length = dest.length →
      copyIndicesLoop src es es
          ((writeSubMeshList l).zip
            (mkSubMeshDescs c ((writeSubMeshList l).map SubMesh.indexCount))) dest
        = dest.take (c * es) ++
          (src.drop (c * es)).take ((l.map SubMeshDesc.indexCount).sum * es) ++
          dest.drop ((c + (l.map SubMeshDesc.indexCount).sum) * es) := by
  induction l with
  | nil =>
    intro c src dest hcum hle hlen
    simp [writeSubMeshList, mkSubMeshDescs, copyIndicesLoop]
  | cons sm rest ih =>
    intro c src dest hcum hle hlen
    obtain ⟨off, n, dop⟩ := sm
    unfold subCum at hcum
    rw [Bool.and_eq_true] at hcum
    obtain ⟨hoffb, hcr⟩ := hcum
    have hoff : off = c := by simpa using hoffb
    subst hoff
    set S := (rest.map SubMeshDesc.indexCount).sum with hS
    have hsum : (((⟨off, n, dop⟩ : SubMeshDesc) :: rest).map SubMeshDesc.indexCount).sum
        = n + S := by simp [hS]
    rw [hsum] at hle ⊢
    rw [show (off + (n + S)) * es = off * es + (n * es + S * es) by ring] at hle ⊢
    rw [show (n + S) * es = n * es + S * es by ring]
    by_cases h0 : 0 < n
    · -- nonzero submesh: it is kept and copied
      have hw : writeSubMeshList ((⟨off, n, dop⟩ : SubMeshDesc) :: rest) =
          (⟨off, n, dop⟩ : SubMesh) :: writeSubMeshList rest := by
        simp [writeSubMeshList, List.filterMap_cons, h0]
      rw [hw, List.map_cons]
      show copyIndicesLoop src es es
          ((⟨off, n, dop⟩ :: writeSubMeshList rest).zip
            (mkSubMeshDescs off (n :: (writeSubMeshList rest).map SubMesh.indexCount))) dest = _
      rw [mkSubMeshDescs, List.zip_cons_cons, copyIndicesLoop]
      dsimp only at hcr ⊢
      have hchunk : ((src.drop (off * es)).take (n * es)).length = n * es := by
        rw [List.length_take, List.length_drop]
        omega
      have hle2 : (off + n + S) * es ≤ src.length := by
        rw [show (off + n + S) * es = off * es + (n * es + S * es) by ring]
        exact hle
      have ihs := ih (off + n) src
        (writeBytesAt dest (off * es) ((src.drop (off * es)).take (n * es)))
        hcr hle2
        (by rw [length_writeBytesAt]; exact hlen)
      rw [show (off + n) * es = off * es + n * es by ring,
          show (off + n + S) * es = off * es + n * es + S * es by ring] at ihs
      rw [ihs]
      have hd1 : writeBytesAt dest (off * es) ((src.drop (off * es)).take (n * es)) =
          (dest.take (off * es) ++ (src.drop (off * es)).take (n * es)) ++
            dest.drop (off * es + n * es) := by
        rw [writeBytesAt_eq_of_le _ _ _ (by rw [hchunk]; omega), hchunk]
      have hAB : (dest.take (off * es) ++ (src.drop (off * es)).take (n * es)).length =
          off * es + n * es := by
        rw [List.length_append, List.length_take, hchunk]
        omega
      rw [hd1]
      rw [List.take_left' hAB]
      rw [show off * es + n * es + S * es =
            (dest.take (off * es) ++ (src.drop (off * es)).take (n * es)).length + S * es
          by rw [hAB]]
      rw [drop_append_len]
      rw [List.drop_drop]
      have hsplit : (src.drop (off * es)).take (n * es + S * es) =
          (src.drop (off * es)).take (n * es) ++ (src.drop (off * es + n * es)).take (S * es) := by
        rw [take_add_append]
        congr 2
        rw [List.drop_drop]
      rw [hsplit]
      simp [List.append_assoc]
      congr 1
      omega
    · -- zero-index submesh: skipped by the rebuild
      have hz : n = 0 := by omega
      subst hz
      have hw : writeSubMeshList ((⟨off, 0, dop⟩ : SubMeshDesc) :: rest) =
          writeSubMeshList rest := by
        simp [writeSubMeshList, List.filterMap_cons]
      rw [hw]
      rw [Nat.add_zero] at hcr
      have := ih off src dest hcr
        (by rw [show (off + S) * es = off * es + (0 * es + S * es) by ring]; exact hle)
        hlen
      rw [show (off + S) * es = off * es + S * es by ring] at this
      simpa using this

theorem writeIndexBuffer_eq (d : MeshData)
    (hidx : d.indexBytes.length = d.getNumIndicesTotal * d.indexType.size) :
    writeIndexBuffer d =
      ⟨d.indexType, d.getNumIndicesTotal, d.indexBytes⟩ := by
  unfold writeIndexBuffer createIndexBuffer
  dsimp [MeshData.getIndexData, MeshData.getIndexBufferSize]
  rw [List.take_length]
  rw [writeBytesAt_zero_full]
  simp [hidx]

theorem writeVertexBuffers_single (d : MeshData) (s : Nat) (b : List Nat)
    (hs : d.streams = [(s, b)])
    (hb : b.length = vertexSizeOf d.declElements s * d.numVertices) :
    writeVertexBuffers d =
      [(s, ⟨vertexSizeOf d.declElements s, d.numVertices, b⟩)] := by
  unfold writeVertexBuffers
  have hmax : d.getMaxStreamIdx = s := by
    simp [MeshData.getMaxStreamIdx, hs]
  rw [hmax]
  rw [filterMap_range_eq_single _ (s + 1) s (by omega)
    (by
      intro i hi
      have hfalse : d.hasStream i = false := by
        have hne : (i == s) = false := beq_eq_false_iff_ne.mpr hi
        simp [MeshData.hasStream, hs, List.lookup, hne]
      simp [hfalse])]
  have hhs : d.hasStream s = true := by
    simp [MeshData.hasStream, hs, List.lookup]
  have hdata : d.getStreamData s = b := by
    simp [MeshData.getStreamData, hs, List.lookup]
  simp only [hhs, if_true, Option.toList_some]
  rw [MeshData.getStreamSize, hdata, List.take_length]
  unfold createVertexBuffer
  rw [MeshData.createDeclaration]
  rw [writeBytesAt_zero_full _ _ (by simp [hb])]

theorem map_retarget_self (l : List VertexElement) (k : Nat)
    (h : l.all (fun e => e.streamIdx == k) = true) :
    l.map (fun e => { e with streamIdx := k }) = l := by
  induction l with
  | nil => rfl
  | cons e t ih =>
    rw [List.all_cons, Bool.and_eq_true] at h
    obtain ⟨he, ht⟩ := h
    obtain ⟨et, sem, semi, si⟩ := e
    simp at he
    subst he
    simp [ih ht]

theorem maxStreamIdxOf_retarget_zero (l : List VertexElement) :
    maxStreamIdxOf (l.map (fun e => { e with streamIdx := 0 })) = 0 := by
  induction l with
  | nil => rfl
  | cons e t ih =>
    simp [maxStreamIdxOf] at ih ⊢
    exact ih

theorem streamIndicesOf_retarget_zero (l : List VertexElement) (h : l ≠ []) :
    streamIndicesOf (l.map (fun e => { e with streamIdx := 0 })) = [0] := by
  unfold streamIndicesOf
  rw [maxStreamIdxOf_retarget_zero]
  cases l with
  | nil => exact absurd rfl h
  | cons e t =>
    rw [show List.range 1 = [0] from rfl]
    simp [List.filter_cons]

theorem vertexSizeOf_retarget_zero (l : List VertexElement) :
    vertexSizeOf (l.map (fun e => { e with streamIdx := 0 })) 0 =
      (l.map (fun e => e.etype.size)).sum := by
  induction l with
  | nil => rfl
  | cons e t ih =>
    simp [vertexSizeOf, List.filter_cons] at ih ⊢
    exact ih

theorem vertexSizeOf_all_on (l : List VertexElement) (s : Nat)
    (h : l.all (fun e => e.streamIdx == s) = true) :
    vertexSizeOf l s = (l.map (fun e => e.etype.size)).sum := by
  induction l with
  | nil => rfl
  | cons e t ih =>
    rw [List.all_cons, Bool.and_eq_true] at h
    obtain ⟨he, ht⟩ := h
    have ihe := ih ht
    simp [vertexSizeOf, List.filter_cons, he] at ihe ⊢
    omega

theorem allocate_after_write_single (d : MeshData) (s : Nat) (b : List Nat)
    (hs : d.streams = [(s, b)])
    (hb : b.length = vertexSizeOf d.declElements s * d.numVertices) :
    (writeSubresourceData d).allocateSubresourceBuffer 0 =
      some (buildMeshData d.numVertices d.indexType
        ((writeSubMeshList d.subMeshes).map SubMesh.indexCount)
        (d.declElements.map (fun e => { e with streamIdx := 0 }))) := by
  simp only [Mesh.allocateSubresourceBuffer, writeSubresourceData, allocateFromMesh]
  rw [writeVertexBuffers_single d s b hs hb]
  simp [List.enum, List.enumFrom, MeshData.createDeclaration, writeIndexBuffer,
    createIndexBuffer]

/-- Claim C1 (amended): writing a well-formed container (mesh-data type id,
cumulative submesh offsets, index byte count matching the total index count)
with a nonzero number of submeshes and exactly one populated vertex stream
whose declaration elements all live on that stream, then reading the mesh back
into a container produced by allocateSubresourceBuffer, yields index and
vertex content byte-identical to the original write; with two or more
populated streams the read-back differs, see the counterexample. -/
theorem mesh_roundtrip_single_stream
    (d : MeshData) (s : Nat) (b : List Nat)
    (ht : d.typeId = TID_MeshData)
    (hne : d.subMeshes ≠ [])
    (hcum : subCum 0 d.subMeshes = true)
    (hidx : d.indexBytes.length = d.getNumIndicesTotal * d.indexType.size)
    (hs : d.streams = [(s, b)])
    (helem : d.declElements.all (fun e => e.streamIdx == s) = true)
    (helemne : d.declElements ≠ [])
    (hb : b.length = vertexSizeOf d.declElements s * d.numVertices) :
    (meshRoundTrip d).map MeshData.indexBytes = some d.indexBytes ∧
    (meshRoundTrip d).map (fun out => out.streams.map Prod.snd) =
      some (d.streams.map Prod.snd) := by
  have hwv := writeVertexBuffers_single d s b hs hb
  have hwi := writeIndexBuffer_eq d hidx
  have h1 : Mesh.writeSubresource ⟨[], none, none⟩ 0 d =
      Except.ok (writeSubresourceData d) := by
    simp [Mesh.writeSubresource, ht]
  have h2 := allocate_after_write_single d s b hs hb
  have hT : ((writeSubMeshList d.subMeshes).map SubMesh.indexCount).sum =
      d.getNumIndicesTotal := sum_writeSubMeshList d.subMeshes
  have hVs : vertexSizeOf (d.declElements.map (fun e => { e with streamIdx := 0 })) 0 =
      vertexSizeOf d.declElements s := by
    rw [vertexSizeOf_retarget_zero, vertexSizeOf_all_on d.declElements s helem]
  have hstreamsbuf : (streamIndicesOf
        (d.declElements.map (fun e => { e with streamIdx := 0 }))).map
      (fun k => (k, List.replicate (vertexSizeOf
        (d.declElements.map (fun e => { e with streamIdx := 0 })) k * d.numVertices) 0)) =
      [(0, List.replicate (vertexSizeOf d.declElements s * d.numVertices) 0)] := by
    rw [streamIndicesOf_retarget_zero d.declElements helemne]
    simp [hVs]
  have hidxcopy : copyIndicesLoop d.indexBytes d.indexType.size d.indexType.size
      ((writeSubMeshList d.subMeshes).zip
        (mkSubMeshDescs 0 ((writeSubMeshList d.subMeshes).map SubMesh.indexCount)))
      (List.replicate (d.getNumIndicesTotal * d.indexType.size) 0) = d.indexBytes := by
    have hrec := copyIndicesLoop_reconstruct d.indexType.size d.subMeshes 0 d.indexBytes
      (List.replicate (d.getNumIndicesTotal * d.indexType.size) 0) hcum
      (by
        rw [Nat.zero_add]
        rw [show (d.subMeshes.map SubMeshDesc.indexCount).sum = d.getNumIndicesTotal from rfl]
        rw [← hidx])
      (by simp [hidx])
    rw [hrec]
    simp only [Nat.zero_mul, Nat.zero_add, List.take_zero, List.drop_zero, List.nil_append]
    rw [show (d.subMeshes.map SubMeshDesc.indexCount).sum = d.getNumIndicesTotal from rfl]
    rw [← hidx, List.take_length]
    simp [hidx]
  have hstreamcopy : copyStreamsLoop
      ([(s, (⟨vertexSizeOf d.declElements s, d.numVertices, b⟩ : VertexBuffer))].enum)
      [(0, List.replicate (vertexSizeOf d.declElements s * d.numVertices) 0)] = [(0, b)] := by
    simp only [List.enum, List.enumFrom, copyStreamsLoop, List.lookup, setStream]
    simp only [beq_self_eq_true, Option.getD_some, if_true]
    rw [show b.take (vertexSizeOf d.declElements s * d.numVertices) = b from by
      rw [← hb]; exact List.take_length b]
    rw [writeBytesAt_zero_full _ _ (by simp [hb])]
    simp
  have h3 : (writeSubresourceData d).readSubresource 0
      (buildMeshData d.numVertices d.indexType
        ((writeSubMeshList d.subMeshes).map SubMesh.indexCount)
        (d.declElements.map (fun e => { e with streamIdx := 0 }))) =
      Except.ok { buildMeshData d.numVertices d.indexType
          ((writeSubMeshList d.subMeshes).map SubMesh.indexCount)
          (d.declElements.map (fun e => { e with streamIdx := 0 })) with
        indexBytes := d.indexBytes, streams := [(0, b)] } := by
    simp only [Mesh.readSubresource, writeSubresourceData]
    rw [show (buildMeshData d.numVertices d.indexType
        ((writeSubMeshList d.subMeshes).map SubMesh.indexCount)
        (d.declElements.map (fun e => { e with streamIdx := 0 }))).typeId = TID_MeshData
      from rfl]
    simp only [ne_eq, not_true_eq_false, if_false, reduceCtorEq, reduceIte]
    rw [hwi, hwv]
    simp only [buildMeshData]
    rw [hT, hidxcopy, hstreamsbuf, hstreamcopy]
  refine ⟨?_, ?_⟩ <;> simp only [meshRoundTrip, h1, h2, h3] <;> simp [hs]

/-
Claim theorems, witnesses and counterexamples.
-/

theorem getParamOfType_spec (gp : GpuParams) (name : String)
    (expected : GpuParamDataType) (tn : String) :
    ((gp.getParamOfType name expected tn).isOk ↔
      ∃ dd, gp.findParam name = some dd ∧ dd.type = expected) ∧
    (∀ dd, gp.findParam name = some dd → dd.type = expected →
      gp.getParamOfType name expected tn = Except.ok ⟨dd⟩) := by
  cases h : gp.findParam name with
  | none => simp [GpuParams.getParamOfType, h, Except.isOk, Except.toBool]
  | some dd =>
    by_cases hty : dd.type = expected
    · simp [GpuParams.getParamOfType, h, hty, Except.isOk, Except.toBool]
    · simp [GpuParams.getParamOfType, h, hty, Except.isOk, Except.toBool]

/-- Claim C2: for every name and supported element type, getParam fails with an
invalid-parameter condition exactly when the name is absent from the descriptor
set or the stored type of that parameter does not match the requested type, and
succeeds with a handle for that parameter otherwise; stated jointly for the six
typed specializations (float, vector 2, vector 3, vector 4, matrix 3x3,
matrix 4x4). -/
theorem gpuParams_getParam_type_checked (gp : GpuParams) (name : String) :
    (((gp.getParamFloat name).isOk ↔
        ∃ dd, gp.findParam name = some dd ∧ dd.type = GpuParamDataType.GPDT_FLOAT1) ∧
      (∀ dd, gp.findParam name = some dd → dd.type = GpuParamDataType.GPDT_FLOAT1 →
        gp.getParamFloat name = Except.ok ⟨dd⟩)) ∧
    (((gp.getParamVec2 name).isOk ↔
        ∃ dd, gp.findParam name = some dd ∧ dd.type = GpuParamDataType.GPDT_FLOAT2) ∧
      (∀ dd, gp.findParam name = some dd → dd.type = GpuParamDataType.GPDT_FLOAT2 →
        gp.getParamVec2 name = Except.ok ⟨dd⟩)) ∧
    (((gp.getParamVec3 name).isOk ↔
        ∃ dd, gp.findParam name = some dd ∧ dd.type = GpuParamDataType.GPDT_FLOAT3) ∧
      (∀ dd, gp.findParam name = some dd → dd.type = GpuParamDataType.GPDT_FLOAT3 →
        gp.getParamVec3 name = Except.ok ⟨dd⟩)) ∧
    (((gp.getParamVec4 name).isOk ↔
        ∃ dd, gp.findParam name = some dd ∧ dd.type = GpuParamDataType.GPDT_FLOAT4) ∧
      (∀ dd, gp.findParam name = some dd → dd.type = GpuParamDataType.GPDT_FLOAT4 →
        gp.getParamVec4 name = Except.ok ⟨dd⟩)) ∧
    (((gp.getParamMat3 name).isOk ↔
        ∃ dd, gp.findParam name = some dd ∧ dd.type = GpuParamDataType.GPDT_MATRIX_3X3) ∧
      (∀ dd, gp.findParam name = some dd → dd.type = GpuParamDataType.GPDT_MATRIX_3X3 →
        gp.getParamMat3 name = Except.ok ⟨dd⟩)) ∧
    (((gp.getParamMat4 name).isOk ↔
        ∃ dd, gp.findParam name = some dd ∧ dd.type = GpuParamDataType.GPDT_MATRIX_4X4) ∧
      (∀ dd, gp.findParam name = some dd → dd.type = GpuParamDataType.GPDT_MATRIX_4X4 →
        gp.getParamMat4 name = Except.ok ⟨dd⟩)) :=
  ⟨getParamOfType_spec gp name _ _, getParamOfType_spec gp name _ _,
   getParamOfType_spec gp name _ _, getParamOfType_spec gp name _ _,
   getParamOfType_spec gp name _ _, getParamOfType_spec gp name _ _⟩

/-- Witness for claim C2: on a descriptor set holding a float4 named tint, the
vector 4 accessor succeeds with a handle for that parameter and the float
accessor rejects the call. -/
theorem gpuParams_getParam_type_checked_witness :
    exGpuParams.getParamVec4 "tint" =
      Except.ok ⟨⟨GpuParamDataType.GPDT_FLOAT4, 16, 1⟩⟩ ∧
    (exGpuParams.getParamFloat "tint").isOk = false := by
  constructor
  · exact (gpuParams_getParam_type_checked exGpuParams "tint").2.2.2.1.2
      ⟨GpuParamDataType.GPDT_FLOAT4, 16, 1⟩ rfl rfl
  · decide

/-- Claim C3: getSubMeshData fails with an index-out-of-range condition exactly
when the index is outside the valid range, and for an in-range index returns a
bundle with index data, vertex data and the draw operation of that submesh. -/
theorem getSubMeshData_index_range (m : Mesh) (i : Nat) :
    ((m.getSubMeshData i).isOk ↔ i < m.mSubMeshes.length) ∧
    (i < m.mSubMeshes.length →
      m.getSubMeshData i = Except.ok
        { indexData := m.mIndexData, vertexData := m.mVertexData, useIndexes := true,
          operationType := (m.mSubMeshes.getD i default).drawOp }) := by
  by_cases hi : i < m.mSubMeshes.length
  · have hle : ¬ m.mSubMeshes.length ≤ i := by omega
    simp [Mesh.getSubMeshData, hle, hi, Except.isOk, Except.toBool]
  · have hle : m.mSubMeshes.length ≤ i := by omega
    simp [Mesh.getSubMeshData, hle, hi, Except.isOk, Except.toBool]

/-- Witness for claim C3 on a mesh with two submeshes: index 1 is accepted with
the draw operation of the second submesh, index 2 is rejected. -/
theorem getSubMeshData_index_range_witness :
    (exMesh.getSubMeshData 1).isOk ∧ ¬ (exMesh.getSubMeshData 2).isOk ∧
    exMesh.getSubMeshData 1 = Except.ok
      { indexData := exMesh.mIndexData, vertexData := exMesh.mVertexData,
        useIndexes := true, operationType := 2 } := by
  refine ⟨?_, ?_, ?_⟩
  · exact (getSubMeshData_index_range exMesh 1).1.mpr (by decide)
  · intro hok
    exact absurd ((getSubMeshData_index_range exMesh 2).1.mp hok) (by decide)
  · exact (getSubMeshData_index_range exMesh 1).2 (by decide)

/-- Claim C4: for every in-range submesh index the bundle returned by
getSubMeshData references the entire index data and entire vertex data of the
mesh, so the requested submesh's index sub-range is not applied and the
referenced buffers are identical for all submesh indices. -/
theorem getSubMeshData_whole_buffers (m : Mesh) (i : Nat)
    (hi : i < m.mSubMeshes.length) :
    ((m.getSubMeshData i).toOption.map RenderOpMesh.indexData = some m.mIndexData) ∧
    ((m.getSubMeshData i).toOption.map RenderOpMesh.vertexData = some m.mVertexData) := by
  have hle : ¬ m.mSubMeshes.length ≤ i := by omega
  simp [Mesh.getSubMeshData, hle, Except.toOption]

/-- Witness for claim C4: at submesh index 0 of the two-submesh mesh the bundle
references the whole index and vertex data. -/
theorem getSubMeshData_whole_buffers_witness :
    ((exMesh.getSubMeshData 0).toOption.map RenderOpMesh.indexData = some exMesh.mIndexData) ∧
    ((exMesh.getSubMeshData 0).toOption.map RenderOpMesh.vertexData = some exMesh.mVertexData) :=
  getSubMeshData_whole_buffers exMesh 0 (by decide)

/-- Claim C5: a successful writeSubresource rebuilds the submesh list as, in
order, exactly the source submeshes with a nonzero index count; those with zero
indices are excluded. -/
theorem writeSubresource_skips_zero_index_submeshes (m m2 : Mesh) (i : Nat) (d : MeshData)
    (h : m.writeSubresource i d = Except.ok m2) :
    m2.mSubMeshes = (d.subMeshes.filter (fun sm => 0 < sm.indexCount)).map
      (fun sm => ⟨sm.indexOffset, sm.indexCount, sm.drawOp⟩) := by
  rw [Mesh.writeSubresource] at h
  by_cases htid : d.typeId ≠ TID_MeshData
  · simp [htid] at h
  · simp [htid] at h
    rw [← h]
    simp [writeSubresourceData, writeSubMeshList_eq_filter_map]

/-- Witness for claim C5: a container with three submeshes, the middle one with
zero indices, produces a mesh with the first and third submesh only. -/
theorem writeSubresource_skips_zero_index_submeshes_witness :
    (writeSubresourceData exMeshDataZeroSub).mSubMeshes =
      (exMeshDataZeroSub.subMeshes.filter (fun sm => 0 < sm.indexCount)).map
        (fun sm => ⟨sm.indexOffset, sm.indexCount, sm.drawOp⟩) ∧
    exMeshDataZeroSub.subMeshes.length = 3 ∧
    (writeSubresourceData exMeshDataZeroSub).mSubMeshes.length = 2 :=
  ⟨writeSubresource_skips_zero_index_submeshes ⟨[], none, none⟩
      (writeSubresourceData exMeshDataZeroSub) 0 exMeshDataZeroSub rfl,
   by decide, by decide⟩

/-- Claim C6: writeSubresource and readSubresource called with a container whose
type id is not the mesh-data one fail immediately with the invalid-resource-type
message; the rejection happens before any state is read or written, so the mesh
state is left untouched. -/
theorem subresource_wrong_type_rejected (m : Mesh) (i j : Nat) (d : MeshData)
    (h : d.typeId ≠ TID_MeshData) :
    m.writeSubresource i d =
      Except.error "Invalid GpuResourceData type. Only MeshData is supported." ∧
    m.readSubresource j d =
      Except.error "Invalid GpuResourceData type. Only MeshData is supported." := by
  constructor <;> simp [Mesh.writeSubresource, Mesh.readSubresource, h]

/-- Witness for claim C6 at a container whose type id is zero. -/
theorem subresource_wrong_type_rejected_witness :
    exMesh.writeSubresource 0 exWrongTypeData =
      Except.error "Invalid GpuResourceData type. Only MeshData is supported." ∧
    exMesh.readSubresource 0 exWrongTypeData =
      Except.error "Invalid GpuResourceData type. Only MeshData is supported." :=
  subresource_wrong_type_rejected exMesh 0 0 exWrongTypeData (by decide)

/-- Claim C7: writing the same container twice leaves the mesh in the same
observable state as writing it once; the write is a full replace that never
consults the previous mesh state. -/
theorem writeSubresource_idempotent (m m2 : Mesh) (i j : Nat) (d : MeshData)
    (h : m.writeSubresource i d = Except.ok m2) :
    m2.writeSubresource j d = Except.ok m2 := by
  have heq : m2.writeSubresource j d = m.writeSubresource i d := rfl
  rw [heq, h]

/-- Witness for claim C7 at the single-stream container. -/
theorem writeSubresource_idempotent_witness :
    (writeSubresourceData exMeshDataOneStream).writeSubresource 0 exMeshDataOneStream =
      Except.ok (writeSubresourceData exMeshDataOneStream) :=
  writeSubresource_idempotent ⟨[], none, none⟩ (writeSubresourceData exMeshDataOneStream)
    0 0 exMeshDataOneStream rfl

/-- Claim C9: graphics pipeline state construction from a descriptor with no
shader-stage programs set succeeds, and every stage presence check returns
false. -/
theorem pipeline_state_no_programs (desc : PIPELINE_STATE_DESC)
    (hv : desc.vertexProgram = none) (hf : desc.fragmentProgram = none)
    (hg : desc.geometryProgram = none) (hu : desc.hullProgram = none)
    (ho : desc.domainProgram = none) :
    (TGraphicsPipelineState.ofDesc desc).hasVertexProgram = false ∧
    (TGraphicsPipelineState.ofDesc desc).hasFragmentProgram = false ∧
    (TGraphicsPipelineState.ofDesc desc).hasGeometryProgram = false ∧
    (TGraphicsPipelineState.ofDesc desc).hasHullProgram = false ∧
    (TGraphicsPipelineState.ofDesc desc).hasDomainProgram = false := by
  simp [TGraphicsPipelineState.ofDesc, TGraphicsPipelineState.hasVertexProgram,
    TGraphicsPipelineState.hasFragmentProgram, TGraphicsPipelineState.hasGeometryProgram,
    TGraphicsPipelineState.hasHullProgram, TGraphicsPipelineState.hasDomainProgram,
    hv, hf, hg, hu, ho]

/-- Witness for claim C9 at the all-null descriptor. -/
theorem pipeline_state_no_programs_witness :
    (TGraphicsPipelineState.ofDesc
        ⟨none, none, none, none, none, none, none, none⟩).hasVertexProgram = false ∧
    (TGraphicsPipelineState.ofDesc
        ⟨none, none, none, none, none, none, none, none⟩).hasFragmentProgram = false ∧
    (TGraphicsPipelineState.ofDesc
        ⟨none, none, none, none, none, none, none, none⟩).hasGeometryProgram = false ∧
    (TGraphicsPipelineState.ofDesc
        ⟨none, none, none, none, none, none, none, none⟩).hasHullProgram = false ∧
    (TGraphicsPipelineState.ofDesc
        ⟨none, none, none, none, none, none, none, none⟩).hasDomainProgram = false :=
  pipeline_state_no_programs ⟨none, none, none, none, none, none, none, none⟩
    rfl rfl rfl rfl rfl

/-- Claim C10: allocateSubresourceBuffer reads the vertex count through the
vertex data block before any null check, so the call is defined exactly when
the vertex data block is present; the index data block is null checked and may
be absent. -/
theorem allocateSubresourceBuffer_requires_vertex_data (m : Mesh) (i : Nat) :
    (m.allocateSubresourceBuffer i).isSome = m.mVertexData.isSome := by
  cases h : m.mVertexData <;> simp [Mesh.allocateSubresourceBuffer, h]

/-- Counterexample to claim C1 as stated: for the container with two populated
vertex streams the write, allocate, read round trip returns vertex stream
content that is not byte-identical to the original; every read-back stream
carries the combined stride of all declaration elements, so four trailing
zero bytes appear per stream. -/
theorem mesh_roundtrip_two_streams_cex :
    (meshRoundTrip exMeshDataTwoStreams).map (fun out => out.streams.map Prod.snd) ≠
      some (exMeshDataTwoStreams.streams.map Prod.snd) ∧
    (meshRoundTrip exMeshDataTwoStreams).map (fun out => out.streams.map Prod.snd) =
      some [[1, 2, 3, 4, 0, 0, 0, 0], [5, 6, 7, 8, 0, 0, 0, 0]] ∧
    exMeshDataTwoStreams.streams.map Prod.snd = [[1, 2, 3, 4], [5, 6, 7, 8]] :=
  ⟨by decide, by decide, by decide⟩

/-- Witness for claim C1 (amended) at the scenario container: one submesh of
six 16-bit indices and one stream of four vertices with a 12-byte stride
round-trips byte-identically. -/
theorem mesh_roundtrip_single_stream_witness :
    (meshRoundTrip exMeshDataOneStream).map MeshData.indexBytes =
      some exMeshDataOneStream.indexBytes ∧
    (meshRoundTrip exMeshDataOneStream).map (fun out => out.streams.map Prod.snd) =
      some (exMeshDataOneStream.streams.map Prod.snd) :=
  mesh_roundtrip_single_stream exMeshDataOneStream 0
    ((List.range 48).map (fun x => x + 100))
    rfl (by decide) (by decide) (by decide) rfl (by decide) (by decide) (by decide)

/-- Counterexample to claim C8 as stated: on the mesh written from the
two-stream container, the allocated container assigns both declaration
elements to destination stream 0 while the mesh declaration has exactly one
element on stream 0, so the per-stream element layout does not match. -/
theorem allocate_per_stream_layout_cex :
    ((writeSubresourceData exMeshDataTwoStreams).allocateSubresourceBuffer 0).map
        (fun buf => (buf.declElements.filter (fun e => e.streamIdx == 0)).length) =
      some 2 ∧
    ((writeSubresourceData exMeshDataTwoStreams).mVertexData.map
        (fun vd => (vd.vertexDeclaration.filter (fun e => e.streamIdx == 0)).length)) =
      some 1 :=
  ⟨by decide, by decide⟩

/-- Claim C8 (amended): allocateSubresourceBuffer returns an empty, zero-filled
container whose submesh index counts replay the mesh submesh list when an
index data block exists and whose vertex count matches the mesh; because the
allocation loop adds the whole declaration to every destination stream, the
per-stream element layout matches the mesh declaration exactly in the
single-stream case, stated here for a mesh with one vertex buffer on stream
zero and all declaration elements on stream zero. -/
theorem allocate_single_stream_layout (m : Mesh) (i : Nat) (vd : VertexData)
    (vb : VertexBuffer)
    (hv : m.mVertexData = some vd)
    (hbuf : vd.buffers = [(0, vb)])
    (hall : vd.vertexDeclaration.all (fun e => e.streamIdx == 0) = true)
    (hne : vd.vertexDeclaration ≠ []) :
    (m.allocateSubresourceBuffer i).map MeshData.declElements = some vd.vertexDeclaration ∧
    (m.allocateSubresourceBuffer i).map MeshData.streams =
      some [(0, List.replicate (vertexSizeOf vd.vertexDeclaration 0 * vd.vertexCount) 0)] ∧
    (m.mIndexData.isSome →
      (m.allocateSubresourceBuffer i).map
          (fun buf => buf.subMeshes.map SubMeshDesc.indexCount) =
        some (m.mSubMeshes.map SubMesh.indexCount)) ∧
    (m.allocateSubresourceBuffer i).map MeshData.numVertices = some vd.vertexCount := by
  have helems : (vd.buffers.enum.map (fun p =>
      vd.vertexDeclaration.map (fun e => { e with streamIdx := p.fst }))).flatten =
      vd.vertexDeclaration.map (fun e => { e with streamIdx := 0 }) := by
    rw [hbuf]
    simp [List.enum, List.enumFrom]
  refine ⟨?_, ?_, ?_, ?_⟩
  · simp only [Mesh.allocateSubresourceBuffer, hv, allocateFromMesh, helems, buildMeshData]
    simp [map_retarget_self vd.vertexDeclaration 0 hall]
  · simp only [Mesh.allocateSubresourceBuffer, hv, allocateFromMesh, helems, buildMeshData]
    rw [streamIndicesOf_retarget_zero vd.vertexDeclaration hne]
    simp [vertexSizeOf_retarget_zero, vertexSizeOf_all_on vd.vertexDeclaration 0 hall]
  · intro hsome
    obtain ⟨id0, hid⟩ := Option.isSome_iff_exists.mp hsome
    simp only [Mesh.allocateSubresourceBuffer, hv, allocateFromMesh, hid, buildMeshData]
    simp [mkSubMeshDescs_map_indexCount]
  · simp only [Mesh.allocateSubresourceBuffer, hv, allocateFromMesh, buildMeshData]
    simp

/-- Witness for claim C8 (amended) at a concrete single-stream mesh. -/
theorem allocate_single_stream_layout_witness :
    (exMeshSingleStream.allocateSubresourceBuffer 0).map MeshData.declElements =
      some [⟨VertexElementType.float1, 0, 0, 0⟩] ∧
    (exMeshSingleStream.allocateSubresourceBuffer 0).map MeshData.streams =
      some [(0, List.replicate 8 0)] ∧
    (exMeshSingleStream.allocateSubresourceBuffer 0).map
        (fun buf => buf.subMeshes.map SubMeshDesc.indexCount) = some [3] ∧
    (exMeshSingleStream.allocateSubresourceBuffer 0).map MeshData.numVertices = some 2 := by
  have h := allocate_single_stream_layout exMeshSingleStream 0
    ⟨2, [⟨VertexElementType.float1, 0, 0, 0⟩],
      [(0, ⟨4, 2, [1, 2, 3, 4, 5, 6, 7, 8]⟩)]⟩
    ⟨4, 2, [1, 2, 3, 4, 5, 6, 7, 8]⟩ rfl rfl (by decide) (by decide)
  exact ⟨h.1, h.2.1, h.2.2.1 (by decide), h.2.2.2⟩
